import Mathlib

/-!
Shallow embedding of `src/src/lib.rs` (crate rusty-axe): a MIDI SysEx frame
extractor and Axe-Fx preset decoder.

Bytes are modelled as `Nat` (with well-formedness `< 256` assumed where it
matters).  Rust panics (`unwrap`, out-of-bounds indexing, usize underflow)
are modelled by an outer `Option`: `none` means the Rust code panics, while
`some none` means it returns Rust's `None` and `some (some p)` means it
returns `Some p`.
-/

namespace RustyAxe

/-- Rust `const SYSEX_MESSAGE_START_BYTE: u8 = 0xf0;`. -/
def SYSEX_MESSAGE_START_BYTE : Nat := 0xf0

/-- Rust `const SYSEX_MESSAGE_END_BYTE: u8 = 0xf7;`. -/
def SYSEX_MESSAGE_END_BYTE : Nat := 0xf7

/-- Rust `enum Target` from lib.rs. -/
inductive Target where
  | CurrentEditBuffer : Target
  | BankAndPreset : Nat → Nat → Target
  deriving DecidableEq, Repr

/-- Rust `struct Preset` from lib.rs. -/
structure Preset where
  model : String
  target : Target
  deriving DecidableEq, Repr

/-- Rust `fn find_sysex_message_start`: `Some 0` iff the first byte is the start
sentinel, `None` otherwise (also on empty input). -/
def find_sysex_message_start (data : List Nat) : Option Nat :=
  match data with
  | [] => none
  | b :: _ => if b = SYSEX_MESSAGE_START_BYTE then some 0 else none

/-- Rust `fn find_sysex_message_end`: index of the first end sentinel, if any. -/
def find_sysex_message_end (data : List Nat) : Option Nat :=
  match data with
  | [] => none
  | b :: rest =>
    if b = SYSEX_MESSAGE_END_BYTE then some 0
    else (find_sysex_message_end rest).map (· + 1)

/-- Rust `fn parse_sysex_messages`: repeatedly take the slice from the start
sentinel (which must be at offset 0 of the remainder, else `unwrap` panics)
through the first end sentinel, then continue on the remainder.  `none`
models a panic of either `unwrap`. -/
def parse_sysex_messages (data : List Nat) : Option (List (List Nat)) :=
  if _h : data.length = 0 then some []
  else
    match find_sysex_message_start data, find_sysex_message_end data with
    | some start, some e =>
      let boundary := e + 1
      let message := (data.drop start).take (boundary - start)
      match parse_sysex_messages (data.drop boundary) with
      | some rest => some (message :: rest)
      | none => none
    | some _, none => none
    | none, _ => none
  termination_by data.length
  decreasing_by
    simp only [List.length_drop]
    omega

/-- Rust `fn axe_model_name`: closed model-code lookup table. -/
def axe_model_name (code : Nat) : String :=
  match code with
  | 0x00 => "Axe-Fx Standard"
  | 0x01 => "Axe-Fx Ultra"
  | 0x03 => "Axe-Fx II"
  | 0x05 => "FX8"
  | 0x06 => "Axe-Fx II XL"
  | 0x07 => "Axe-Fx II XL+"
  | 0x08 => "AX8"
  | _    => "Unknown"

/-- Rust `fn validate_header`: short-circuit `&&` chain over offsets 1,2,3,5.
`none` models an out-of-bounds indexing panic. -/
def validate_header (buf : List Nat) : Option Bool :=
  match buf[1]? with
  | none => none
  | some b1 =>
    if b1 = 0x00 then
      match buf[2]? with
      | none => none
      | some b2 =>
        if b2 = 0x01 then
          match buf[3]? with
          | none => none
          | some b3 =>
            if b3 = 0x74 then
              match buf[5]? with
              | none => none
              | some b5 => some (b5 == 0x77 || b5 == 0x7a || b5 == 0x04)
            else some false
        else some false
    else some false

/-- Rust `fn get_checksums`: stored checksum at `len - 2`, computed checksum is
the XOR-fold of the bytes before it masked with `0x7F`.  `none` models the
panic of `buf.len() - 2` underflow / out-of-bounds slicing when `len < 2`. -/
def get_checksums (buf : List Nat) : Option (Nat × Nat) :=
  if buf.length < 2 then none
  else
    let checksum_index := buf.length - 2
    match buf[checksum_index]? with
    | none => none
    | some file_checksum =>
      let xor := (buf.take checksum_index).foldl (fun acc x => Nat.xor acc x) 0
      some (file_checksum, Nat.land xor 0x7F)

/-- Rust `fn read_syx`: decodes one frame.  Outer `none` is a panic, `some none`
is Rust's `None`, `some (some p)` is `Some p`. -/
def read_syx (buf : List Nat) : Option (Option Preset) :=
  match buf[4]? with
  | none => none
  | some b4 =>
    let model := axe_model_name b4
    match validate_header buf with
    | none => none
    | some false => some none
    | some true =>
      match get_checksums buf with
      | none => none
      | some (file_checksum, calculated_checksum) =>
        if file_checksum ≠ calculated_checksum then some none
        else
          match buf[6]? with
          | none => none
          | some b6 =>
            if b6 = 0x7f then
              some (some { model := model, target := Target.CurrentEditBuffer })
            else
              match buf[7]? with
              | none => none
              | some b7 =>
                some (some { model := model,
                             target := Target.BankAndPreset b6 b7 })

/-- Rust `fn parse_preset`: extract frames and decode the first one
(`messages[0]` panics when the list is empty). -/
def parse_preset (data : List Nat) : Option (Option Preset) :=
  match parse_sysex_messages data with
  | none => none
  | some messages =>
    match messages[0]? with
    | none => none
    | some first => read_syx first

/-- The byte of `buf` at offset `i` (0 when out of range); wherever this is
used the offset is known to be in range. -/
def byteAt (buf : List Nat) (i : Nat) : Nat := (buf[i]?).getD 0

/-- The computed checksum of a frame, as a function of its bytes: XOR-fold
of the bytes at offsets `0 .. len-3` (all bytes strictly before the stored
checksum byte), masked with `0x7F`. -/
def calc_checksum (buf : List Nat) : Nat :=
  Nat.land ((buf.take (buf.length - 2)).foldl (fun acc x => Nat.xor acc x) 0) 0x7F

/-- A well-formed frame: begins with 0xF0, ends with 0xF7, and contains no
0xF0 or 0xF7 bytes in between. -/
def WellFormedFrame (f : List Nat) : Prop :=
  ∃ body : List Nat,
    f = SYSEX_MESSAGE_START_BYTE :: body ++ [SYSEX_MESSAGE_END_BYTE] ∧
    ∀ b ∈ body, b ≠ SYSEX_MESSAGE_START_BYTE ∧ b ≠ SYSEX_MESSAGE_END_BYTE

/-- The buffer `buf` with bit `k` of the byte at offset `i` flipped. -/
def flipBit (buf : List Nat) (i k : Nat) : List Nat :=
  buf.set i (Nat.xor (byteAt buf i) (2 ^ k))

/-- The spec's concrete scenario frame `F0 00 01 74 03 77 7F 00 0E F7`
(checksum `0x0E` = XOR of the first eight bytes masked with `0x7F`). -/
def exampleFrame : List Nat :=
  [0xf0, 0x00, 0x01, 0x74, 0x03, 0x77, 0x7f, 0x00, 0x0e, 0xf7]

/-- Preset decoded from `exampleFrame`. -/
def examplePreset : Preset :=
  { model := "Axe-Fx II", target := Target.CurrentEditBuffer }

/-- A valid frame targeting bank 0, preset 5 (checksum `0x74`). -/
def exampleBankFrame : List Nat :=
  [0xf0, 0x00, 0x01, 0x74, 0x03, 0x77, 0x00, 0x05, 0x74, 0xf7]

/-- The frame `exampleFrame` with offset 1 changed from `0x00` to `0x01`. -/
def badHeaderFrame : List Nat :=
  [0xf0, 0x01, 0x01, 0x74, 0x03, 0x77, 0x7f, 0x00, 0x0e, 0xf7]

/-- A 7-byte well-formed frame that passes header validation (offset-5 byte
`0x77`) and whose stored checksum (the same `0x77` byte, at `len-2`)
matches the computed checksum. -/
def shortFrame : List Nat := [0xf0, 0x00, 0x01, 0x74, 0xf2, 0x77, 0xf7]

/-- A valid frame whose offset-6 byte is `0x80` (outside 7-bit range). -/
def overflowBankFrame : List Nat :=
  [0xf0, 0x00, 0x01, 0x74, 0x03, 0x77, 0x80, 0x05, 0x74, 0xf7]

lemma byteAt_eq (buf : List Nat) (i : Nat) (h : i < buf.length) :
    buf[i]? = some (byteAt buf i) := by
  unfold byteAt
  rw [List.getElem?_eq_getElem h]
  rfl

lemma get_checksums_eq (buf : List Nat) (h : 2 ≤ buf.length) :
    get_checksums buf = some (byteAt buf (buf.length - 2), calc_checksum buf) := by
  have hlt : buf.length - 2 < buf.length := by omega
  unfold get_checksums calc_checksum
  rw [if_neg (by omega)]
  simp only [byteAt_eq buf (buf.length - 2) hlt]

lemma find_end_before (body rest : List Nat)
    (hb : ∀ b ∈ body, b ≠ SYSEX_MESSAGE_END_BYTE) :
    find_sysex_message_end (body ++ SYSEX_MESSAGE_END_BYTE :: rest) =
      some body.length := by
  induction body with
  | nil => simp [find_sysex_message_end]
  | cons x xs ih =>
    have hx : x ≠ SYSEX_MESSAGE_END_BYTE := hb x (by simp)
    have ihx := ih (fun b hbmem => hb b (by simp [hbmem]))
    simp [find_sysex_message_end, hx, ihx]

lemma parse_sysex_messages_flatten (frames : List (List Nat))
    (hwf : ∀ f ∈ frames, WellFormedFrame f) :
    parse_sysex_messages frames.flatten = some frames := by
  induction frames with
  | nil => simp [parse_sysex_messages]
  | cons f fs ih =>
    obtain ⟨body, hf, hbody⟩ := hwf f (by simp)
    have ihfs := ih (fun g hg => hwf g (by simp [hg]))
    subst hf
    have hflat :
        ((SYSEX_MESSAGE_START_BYTE :: body ++ [SYSEX_MESSAGE_END_BYTE]) :: fs).flatten =
          SYSEX_MESSAGE_START_BYTE :: (body ++ SYSEX_MESSAGE_END_BYTE :: fs.flatten) := by
      simp
    rw [hflat]
    rw [parse_sysex_messages]
    have hstart :
        find_sysex_message_start
          (SYSEX_MESSAGE_START_BYTE :: (body ++ SYSEX_MESSAGE_END_BYTE :: fs.flatten)) =
          some 0 := by
      simp [find_sysex_message_start]
    have hne : SYSEX_MESSAGE_START_BYTE ≠ SYSEX_MESSAGE_END_BYTE := by decide
    have hend :
        find_sysex_message_end
          (SYSEX_MESSAGE_START_BYTE :: (body ++ SYSEX_MESSAGE_END_BYTE :: fs.flatten)) =
          some (body.length + 1) := by
      simp [find_sysex_message_end, hne,
        find_end_before body fs.flatten (fun b hb => (hbody b hb).2)]
    rw [dif_neg (by simp)]
    rw [hstart, hend]
    simp only [List.drop_zero, Nat.sub_zero]
    have htake :
        (SYSEX_MESSAGE_START_BYTE :: (body ++ SYSEX_MESSAGE_END_BYTE :: fs.flatten)).take
            (body.length + 1 + 1) =
          SYSEX_MESSAGE_START_BYTE :: body ++ [SYSEX_MESSAGE_END_BYTE] := by
      have := List.take_left
        (SYSEX_MESSAGE_START_BYTE :: body ++ [SYSEX_MESSAGE_END_BYTE]) fs.flatten
      simpa using this
    have hdrop :
        (SYSEX_MESSAGE_START_BYTE :: (body ++ SYSEX_MESSAGE_END_BYTE :: fs.flatten)).drop
            (body.length + 1 + 1) = fs.flatten := by
      have := List.drop_left
        (SYSEX_MESSAGE_START_BYTE :: body ++ [SYSEX_MESSAGE_END_BYTE]) fs.flatten
      simpa using this
    rw [htake, hdrop, ihfs]

lemma validate_header_eq (buf : List Nat) (h : 5 < buf.length) :
    validate_header buf =
      some ((byteAt buf 1 == 0x00) && (byteAt buf 2 == 0x01) &&
        (byteAt buf 3 == 0x74) &&
        ((byteAt buf 5 == 0x77) || (byteAt buf 5 == 0x7a) ||
          (byteAt buf 5 == 0x04))) := by
  have h1 := byteAt_eq buf 1 (by omega)
  have h2 := byteAt_eq buf 2 (by omega)
  have h3 := byteAt_eq buf 3 (by omega)
  have h5 := byteAt_eq buf 5 (by omega)
  by_cases e1 : byteAt buf 1 = 0x00 <;>
    by_cases e2 : byteAt buf 2 = 0x01 <;>
      by_cases e3 : byteAt buf 3 = 0x74 <;>
        simp [validate_header, h1, h2, h3, h5, e1, e2, e3]

lemma read_syx_none_of_reject (buf : List Nat) (h4 : 4 < buf.length)
    (hrej : validate_header buf = some false ∨
      (validate_header buf = some true ∧ 2 ≤ buf.length ∧
        byteAt buf (buf.length - 2) ≠ calc_checksum buf)) :
    read_syx buf = some none := by
  have hb4 := byteAt_eq buf 4 h4
  rcases hrej with hv | ⟨hv, h2, hne⟩
  · simp [read_syx, hb4, hv]
  · have hcs := get_checksums_eq buf h2
    simp [read_syx, hb4, hv, hcs, hne]

lemma read_syx_inv (buf : List Nat) (p : Preset)
    (h : read_syx buf = some (some p)) :
    7 ≤ buf.length ∧
      validate_header buf = some true ∧
      byteAt buf (buf.length - 2) = calc_checksum buf ∧
      p.model = axe_model_name (byteAt buf 4) ∧
      ((byteAt buf 6 = 0x7f ∧ p.target = Target.CurrentEditBuffer) ∨
       (byteAt buf 6 ≠ 0x7f ∧ 8 ≤ buf.length ∧
         p.target = Target.BankAndPreset (byteAt buf 6) (byteAt buf 7))) := by
  unfold read_syx at h
  split at h
  · exact absurd h (by simp)
  next b4 h4 =>
    have hl4 : 4 < buf.length := (List.getElem?_eq_some.mp h4).1
    have hb4 : b4 = byteAt buf 4 := by
      rw [byteAt_eq buf 4 hl4] at h4
      exact (Option.some.inj h4).symm
    split at h
    · exact absurd h (by simp)
    · exact absurd h (by simp)
    next hv =>
      split at h
      · exact absurd h (by simp)
      next fc cc hcs =>
        rw [get_checksums_eq buf (by omega)] at hcs
        have hpair := Option.some.inj hcs
        injection hpair with hfc hcc
        subst hfc
        subst hcc
        split at h
        · exact absurd h (by simp)
        next hne =>
          have heq : byteAt buf (buf.length - 2) = calc_checksum buf :=
            not_not.mp hne
          split at h
          · exact absurd h (by simp)
          next b6 h6 =>
            have hl6 : 6 < buf.length := (List.getElem?_eq_some.mp h6).1
            have hb6 : b6 = byteAt buf 6 := by
              rw [byteAt_eq buf 6 hl6] at h6
              exact (Option.some.inj h6).symm
            split at h
            next h7f =>
              have hp := Option.some.inj (Option.some.inj h)
              subst hp
              refine ⟨by omega, hv, heq, by simp [hb4], Or.inl ⟨?_, rfl⟩⟩
              rw [← hb6]
              exact h7f
            next h7f =>
              split at h
              · exact absurd h (by simp)
              next b7 h7 =>
                have hl7 : 7 < buf.length := (List.getElem?_eq_some.mp h7).1
                have hb7 : b7 = byteAt buf 7 := by
                  rw [byteAt_eq buf 7 hl7] at h7
                  exact (Option.some.inj h7).symm
                have hp := Option.some.inj (Option.some.inj h)
                subst hp
                refine ⟨by omega, hv, heq, by simp [hb4], Or.inr ⟨?_, by omega, ?_⟩⟩
                · rw [← hb6]
                  exact h7f
                · simp [hb6, hb7]

/-- C1: for every buffer composed of N well-formed concatenated frames
(each beginning with 0xF0, ending with 0xF7, no 0xF0/0xF7 in between), the
frame extractor returns exactly those N frames, byte-for-byte, in
left-to-right input order. -/
theorem parse_sysex_messages_roundtrip (frames : List (List Nat))
    (hwf : ∀ f ∈ frames, WellFormedFrame f) :
    parse_sysex_messages frames.flatten = some frames :=
  parse_sysex_messages_flatten frames hwf

/-- Witness for C1 at a concrete two-frame buffer. -/
theorem parse_sysex_messages_roundtrip_witness :
    parse_sysex_messages [[0xf0, 0xf7], [0xf0, 0x42, 0xf7]].flatten =
      some [[0xf0, 0xf7], [0xf0, 0x42, 0xf7]] :=
  parse_sysex_messages_roundtrip [[0xf0, 0xf7], [0xf0, 0x42, 0xf7]] (by
    intro f hf
    simp only [List.mem_cons, List.not_mem_nil, or_false] at hf
    rcases hf with rfl | rfl
    · exact ⟨[], rfl, by simp⟩
    · exact ⟨[0x42], rfl, by decide⟩)

/-- C10: on the empty input buffer the frame extractor returns an empty
sequence of frames and does not fail. -/
theorem parse_sysex_messages_empty : parse_sysex_messages [] = some [] := by
  rw [parse_sysex_messages]
  simp

/-- C2: for every frame of length ≥ 2, `get_checksums` returns the stored
byte at offset `len-2` paired with the XOR-fold of the bytes at offsets
`0 .. len-3` (all bytes strictly before the stored checksum byte, start
sentinel included) masked with 0x7F; and the decoder returns a Preset only
when the stored checksum equals this computed value (contrapositive: a
mismatch yields no Preset). -/
theorem read_syx_checksum_gate (buf : List Nat) (p : Preset)
    (h2 : 2 ≤ buf.length) :
    get_checksums buf =
      some (byteAt buf (buf.length - 2),
        Nat.land ((buf.take (buf.length - 2)).foldl
          (fun acc x => Nat.xor acc x) 0) 0x7F) ∧
    (read_syx buf = some (some p) →
      byteAt buf (buf.length - 2) =
        Nat.land ((buf.take (buf.length - 2)).foldl
          (fun acc x => Nat.xor acc x) 0) 0x7F) := by
  constructor
  · exact get_checksums_eq buf h2
  · intro hp
    exact (read_syx_inv buf p hp).2.2.1

/-- Witness for C2 at the spec's concrete scenario frame. -/
theorem read_syx_checksum_gate_witness :
    get_checksums exampleFrame =
      some (byteAt exampleFrame (exampleFrame.length - 2),
        Nat.land ((exampleFrame.take (exampleFrame.length - 2)).foldl
          (fun acc x => Nat.xor acc x) 0) 0x7F) ∧
    (read_syx exampleFrame = some (some examplePreset) →
      byteAt exampleFrame (exampleFrame.length - 2) =
        Nat.land ((exampleFrame.take (exampleFrame.length - 2)).foldl
          (fun acc x => Nat.xor acc x) 0) 0x7F) :=
  read_syx_checksum_gate exampleFrame examplePreset (by decide)

/-- C3: for every frame that decodes successfully, offset-6 byte `0x7F`
yields `CurrentEditBuffer` (regardless of offset 7); any other offset-6
value yields `BankAndPreset` of the offset-6 and offset-7 bytes. -/
theorem read_syx_target_resolution (buf : List Nat) (p : Preset)
    (hp : read_syx buf = some (some p)) :
    (byteAt buf 6 = 0x7f → p.target = Target.CurrentEditBuffer) ∧
    (byteAt buf 6 ≠ 0x7f →
      p.target = Target.BankAndPreset (byteAt buf 6) (byteAt buf 7)) := by
  obtain ⟨-, -, -, -, hcase⟩ := read_syx_inv buf p hp
  rcases hcase with ⟨h6, ht⟩ | ⟨h6, -, ht⟩
  · exact ⟨fun _ => ht, fun hne => absurd h6 hne⟩
  · exact ⟨fun heq => absurd heq h6, fun _ => ht⟩

/-- Witness for C3 at a frame with offset 6 = 0x00 and offset 7 = 0x05,
which decodes to `BankAndPreset` bank 0, preset 5. -/
theorem read_syx_target_resolution_witness :
    (byteAt exampleBankFrame 6 = 0x7f →
      Preset.target { model := "Axe-Fx II", target := Target.BankAndPreset 0 5 } =
        Target.CurrentEditBuffer) ∧
    (byteAt exampleBankFrame 6 ≠ 0x7f →
      Preset.target { model := "Axe-Fx II", target := Target.BankAndPreset 0 5 } =
        Target.BankAndPreset (byteAt exampleBankFrame 6) (byteAt exampleBankFrame 7)) :=
  read_syx_target_resolution exampleBankFrame
    { model := "Axe-Fx II", target := Target.BankAndPreset 0 5 } (by decide)

/-- C4: a frame whose vendor-signature bytes at offsets 1-3 are not exactly
{0x00, 0x01, 0x74} or whose message-type byte at offset 5 is not one of
{0x77, 0x7A, 0x04} is rejected: the decoder returns Rust `None`, whatever
the checksum bytes hold. -/
theorem read_syx_header_reject (buf : List Nat) (hlen : 5 < buf.length)
    (hbad : ¬(byteAt buf 1 = 0x00 ∧ byteAt buf 2 = 0x01 ∧ byteAt buf 3 = 0x74 ∧
      (byteAt buf 5 = 0x77 ∨ byteAt buf 5 = 0x7a ∨ byteAt buf 5 = 0x04))) :
    read_syx buf = some none := by
  apply read_syx_none_of_reject buf (by omega)
  left
  rw [validate_header_eq buf hlen]
  congr 1
  rw [Bool.eq_false_iff]
  intro htrue
  apply hbad
  simpa [and_assoc, or_assoc] using htrue

/-- Witness for C4: a frame identical to a valid one except offset 1 = 0x01
is rejected. -/
theorem read_syx_header_reject_witness : read_syx badHeaderFrame = some none :=
  read_syx_header_reject badHeaderFrame (by decide) (by decide)

/-- C5: flipping any single bit of any byte at an offset strictly before the
stored checksum byte of a successfully decoded frame (without recomputing
the checksum) makes the decoder return no Preset, whenever the flip does
not coincidentally preserve the computed (masked) XOR result. -/
theorem read_syx_bitflip (buf : List Nat) (p : Preset) (i k : Nat)
    (hp : read_syx buf = some (some p))
    (hi : i < buf.length - 2)
    (hflip : calc_checksum (flipBit buf i k) ≠ calc_checksum buf) :
    read_syx (flipBit buf i k) = some none := by
  obtain ⟨h7, hv, hsum, -, -⟩ := read_syx_inv buf p hp
  have hlen : (flipBit buf i k).length = buf.length := by
    simp [flipBit]
  have hstored :
      byteAt (flipBit buf i k) ((flipBit buf i k).length - 2) =
        byteAt buf (buf.length - 2) := by
    rw [hlen]
    unfold byteAt flipBit
    rw [List.getElem?_set_ne (by omega)]
  apply read_syx_none_of_reject (flipBit buf i k) (by omega)
  by_cases hvh : validate_header (flipBit buf i k) = some true
  · right
    refine ⟨hvh, by omega, ?_⟩
    rw [hstored, hsum]
    exact Ne.symm hflip
  · left
    have hveq := validate_header_eq (flipBit buf i k) (by omega)
    rcases Bool.eq_false_or_eq_true
        ((byteAt (flipBit buf i k) 1 == 0x00) &&
          (byteAt (flipBit buf i k) 2 == 0x01) &&
          (byteAt (flipBit buf i k) 3 == 0x74) &&
          ((byteAt (flipBit buf i k) 5 == 0x77) ||
            (byteAt (flipBit buf i k) 5 == 0x7a) ||
            (byteAt (flipBit buf i k) 5 == 0x04))) with hb | hb
    · rw [hb] at hveq
      exact absurd hveq hvh
    · rw [hb] at hveq
      exact hveq

/-- Witness for C5: the spec's scenario of flipping the low bit of the
offset-7 byte of the valid example frame. -/
theorem read_syx_bitflip_witness : read_syx (flipBit exampleFrame 7 0) = some none :=
  read_syx_bitflip exampleFrame examplePreset 7 0 (by decide) (by decide) (by decide)

/-- C6 counterexample: `shortFrame` is a well-formed 7-byte frame that
passes header validation and whose stored checksum equals the computed one,
yet the decoder panics reading `buf[7]` (modelled as `none`) in the
target-resolution step instead of returning Some Preset. -/
theorem read_syx_target_total_cex :
    validate_header shortFrame = some true ∧
    get_checksums shortFrame = some (0x77, 0x77) ∧
    read_syx shortFrame = none := by
  decide

/-- C6 (amended): for every frame of length ≥ 8 that passes header
validation and the checksum comparison, target resolution always succeeds
and the decoder returns Some Preset. -/
theorem read_syx_target_total (buf : List Nat) (h8 : 8 ≤ buf.length)
    (hv : validate_header buf = some true)
    (hc : byteAt buf (buf.length - 2) = calc_checksum buf) :
    read_syx buf =
      some (some { model := axe_model_name (byteAt buf 4),
                   target := if byteAt buf 6 = 0x7f then Target.CurrentEditBuffer
                             else Target.BankAndPreset (byteAt buf 6)
                                    (byteAt buf 7) }) := by
  have h4 := byteAt_eq buf 4 (by omega)
  have h6 := byteAt_eq buf 6 (by omega)
  have h7 := byteAt_eq buf 7 (by omega)
  have hcs := get_checksums_eq buf (by omega)
  rw [hc] at hcs
  by_cases hb : byteAt buf 6 = 0x7f
  · simp [read_syx, h4, h6, h7, hv, hcs, hb]
  · simp [read_syx, h4, h6, h7, hv, hcs, hb]

/-- Witness for the amended C6 at the valid example frame. -/
theorem read_syx_target_total_witness :
    read_syx exampleFrame =
      some (some { model := axe_model_name (byteAt exampleFrame 4),
                   target := if byteAt exampleFrame 6 = 0x7f then
                               Target.CurrentEditBuffer
                             else Target.BankAndPreset (byteAt exampleFrame 6)
                                    (byteAt exampleFrame 7) }) :=
  read_syx_target_total exampleFrame (by decide) (by decide) (by decide)

/-- C7 counterexample: the decoder accepts `overflowBankFrame` and produces
`BankAndPreset` with bank 128, outside the 0-127 range the claim asserts. -/
theorem read_syx_bank_range_cex :
    read_syx overflowBankFrame =
      some (some { model := "Axe-Fx II", target := Target.BankAndPreset 128 5 }) ∧
    ¬(128 ≤ 127) := by
  decide

/-- C7 (amended): in a decoded `BankAndPreset` target, bank and preset are
the frame's offset-6 and offset-7 bytes, and they lie in 0..127 whenever
those bytes are 7-bit-clean MIDI data bytes (< 0x80); the decoder itself
does not enforce the 7-bit bound. -/
theorem read_syx_bank_range (buf : List Nat) (p : Preset) (b pr : Nat)
    (hp : read_syx buf = some (some p))
    (ht : p.target = Target.BankAndPreset b pr)
    (h6 : byteAt buf 6 < 128) (h7 : byteAt buf 7 < 128) :
    b < 128 ∧ pr < 128 := by
  obtain ⟨-, -, -, -, hcase⟩ := read_syx_inv buf p hp
  rcases hcase with ⟨-, ht'⟩ | ⟨-, -, ht'⟩
  · rw [ht'] at ht
    exact Target.noConfusion ht
  · rw [ht'] at ht
    injection ht with hb hpr
    omega

/-- Witness for the amended C7 at the bank-0/preset-5 frame. -/
theorem read_syx_bank_range_witness : 0 < 128 ∧ 5 < 128 :=
  read_syx_bank_range exampleBankFrame
    { model := "Axe-Fx II", target := Target.BankAndPreset 0 5 } 0 5
    (by decide) (by decide) (by decide) (by decide)

/-- C8: `parse_preset` returns (rather than panics) only when the extracted
frame list is non-empty and its first frame is at least 5 bytes long; on the
empty buffer it panics indexing `messages[0]`, and on the minimal frame
`F0 F7` it panics reading `buf[4]` (both modelled as `none`). -/
theorem parse_preset_panics (data : List Nat) (r : Option Preset)
    (msgs : List (List Nat))
    (h : parse_preset data = some r)
    (hm : parse_sysex_messages data = some msgs) :
    parse_preset [] = none ∧
    parse_preset [0xf0, 0xf7] = none ∧
    msgs ≠ [] ∧ 5 ≤ (msgs[0]?.getD []).length := by
  refine ⟨?_, ?_, ?_⟩
  · simp [parse_preset, parse_sysex_messages]
  · have h1 : parse_sysex_messages [0xf0, 0xf7] = some [[0xf0, 0xf7]] := by
      simpa using parse_sysex_messages_flatten [[0xf0, 0xf7]] (by
        intro f hf
        simp only [List.mem_cons, List.not_mem_nil, or_false] at hf
        subst hf
        exact ⟨[], rfl, by simp⟩)
    have h2 : read_syx [0xf0, 0xf7] = none := by decide
    simp [parse_preset, h1, h2]
  · unfold parse_preset at h
    rw [hm] at h
    have h2 : (match msgs[0]? with
        | none => none
        | some fr => read_syx fr) = some r := h
    clear h
    cases hfr : msgs[0]? with
    | none =>
      simp only [hfr] at h2
      exact absurd h2 (by simp)
    | some fr =>
      simp only [hfr] at h2
      have hmne : msgs ≠ [] := by
        intro hcontr
        subst hcontr
        simp at hfr
      refine ⟨hmne, ?_⟩
      unfold read_syx at h2
      split at h2
      · exact absurd h2 (by simp)
      next b4 h4 =>
        have := (List.getElem?_eq_some.mp h4).1
        simpa using this

/-- Witness for C8 at the valid example frame. -/
theorem parse_preset_panics_witness :
    parse_preset [] = none ∧
    parse_preset [0xf0, 0xf7] = none ∧
    [exampleFrame] ≠ [] ∧ 5 ≤ (([exampleFrame] : List (List Nat))[0]?.getD []).length := by
  have h1 : parse_sysex_messages exampleFrame = some [exampleFrame] := by
    simpa using parse_sysex_messages_flatten [exampleFrame] (by
      intro f hf
      simp only [List.mem_cons, List.not_mem_nil, or_false] at hf
      subst hf
      exact ⟨[0x00, 0x01, 0x74, 0x03, 0x77, 0x7f, 0x00, 0x0e], rfl, by decide⟩)
  exact parse_preset_panics exampleFrame (some examplePreset) [exampleFrame]
    (by simp [parse_preset, h1]; decide) h1

/-- C9: the model-code mapping is total on bytes: each of the seven known
codes maps to its display name, every other code maps to "Unknown", and the
result is never the empty string. -/
theorem axe_model_name_total (c : Nat) (hc : c < 256) :
    axe_model_name c ≠ "" ∧
    axe_model_name 0x00 = "Axe-Fx Standard" ∧
    axe_model_name 0x01 = "Axe-Fx Ultra" ∧
    axe_model_name 0x03 = "Axe-Fx II" ∧
    axe_model_name 0x05 = "FX8" ∧
    axe_model_name 0x06 = "Axe-Fx II XL" ∧
    axe_model_name 0x07 = "Axe-Fx II XL+" ∧
    axe_model_name 0x08 = "AX8" ∧
    (c ≠ 0x00 → c ≠ 0x01 → c ≠ 0x03 → c ≠ 0x05 → c ≠ 0x06 → c ≠ 0x07 →
      c ≠ 0x08 → axe_model_name c = "Unknown") := by
  refine ⟨?_, rfl, rfl, rfl, rfl, rfl, rfl, rfl, ?_⟩
  · unfold axe_model_name
    split <;> simp
  · intro h0 h1 h3 h5 h6 h7 h8
    unfold axe_model_name
    split <;> simp_all

/-- Witness for C9 at the unlisted code 0x02. -/
theorem axe_model_name_total_witness :
    axe_model_name 2 ≠ "" ∧
    axe_model_name 0x00 = "Axe-Fx Standard" ∧
    axe_model_name 0x01 = "Axe-Fx Ultra" ∧
    axe_model_name 0x03 = "Axe-Fx II" ∧
    axe_model_name 0x05 = "FX8" ∧
    axe_model_name 0x06 = "Axe-Fx II XL" ∧
    axe_model_name 0x07 = "Axe-Fx II XL+" ∧
    axe_model_name 0x08 = "AX8" ∧
    ((2 : Nat) ≠ 0x00 → (2 : Nat) ≠ 0x01 → (2 : Nat) ≠ 0x03 → (2 : Nat) ≠ 0x05 →
      (2 : Nat) ≠ 0x06 → (2 : Nat) ≠ 0x07 → (2 : Nat) ≠ 0x08 →
      axe_model_name 2 = "Unknown") :=
  axe_model_name_total 2 (by decide)

end RustyAxe
